import Mathlib

/-!
Verification of the discord-chat-bot core (`src/bot.py`): position calculator,
formatting utilities, secret store, unlock gate, renderer and reveal controller.
Python floats are embedded as exact rationals (ℚ); Python `str.format` fixed-point
rounding is round-half-even on the value.
-/

set_option maxRecDepth 8000

namespace Bot

/-- Round-half-even (banker's rounding), the rounding used by Python's
fixed-point string formatting. -/
def roundHalfEven (q : ℚ) : ℤ :=
  let f : ℤ := ⌊q⌋
  let r : ℚ := q - (f : ℚ)
  if r < 1 / 2 then f
  else if 1 / 2 < r then f + 1
  else if f % 2 = 0 then f else f + 1

/-- Left-pad a digit string with zeros to the given length. -/
def padZeros (s : String) (len : Nat) : String :=
  if len ≤ s.length then s
  else String.mk (List.replicate (len - s.length) '0') ++ s

/-- Python `f"{q:.prec f}"`: fixed-point rendering of a rational with `prec` decimal
digits, round-half-even. -/
def formatFixed (prec : Nat) (q : ℚ) : String :=
  let m := roundHalfEven (q * (10 : ℚ) ^ prec)
  let sign := if m < 0 then "-" else ""
  let a := m.natAbs
  let ip := a / 10 ^ prec
  let fp := a % 10 ^ prec
  sign ++ toString ip ++ "." ++ padZeros (toString fp) prec

/-- Insert a comma after every group of three digits of a reversed digit list. -/
def groupRev : List Char → List Char
  | a :: b :: c :: d :: rest => a :: b :: c :: ',' :: groupRev (d :: rest)
  | xs => xs

/-- Thousands grouping of a digit string, as Python's `,` format flag does. -/
def groupThousands (s : String) : String :=
  String.mk ((groupRev s.data.reverse).reverse)

/-- Python `f"{q:,.prec f}"`: fixed-point rendering with thousands grouping of the
integer part. -/
def formatFixedGrouped (prec : Nat) (q : ℚ) : String :=
  let m := roundHalfEven (q * (10 : ℚ) ^ prec)
  let sign := if m < 0 then "-" else ""
  let a := m.natAbs
  let ip := a / 10 ^ prec
  let fp := a % 10 ^ prec
  sign ++ groupThousands (toString ip) ++ "." ++ padZeros (toString fp) prec

/-- Function `format_currency` (src/bot.py lines 134-138). -/
def format_currency (value : ℚ) : String :=
  if 1000 ≤ value then "$" ++ formatFixedGrouped 1 value
  else "$" ++ formatFixed 2 value

/-- Function `format_percentage` (src/bot.py lines 141-143). -/
def format_percentage (value : ℚ) : String :=
  formatFixed 1 value ++ "%"

/-- Function `format_quantity` (src/bot.py lines 146-153). -/
def format_quantity (value : ℚ) : String :=
  if 1000 ≤ value then formatFixed 2 (value / 1000) ++ "K"
  else if 1 ≤ value then formatFixed 2 value
  else formatFixed 4 value

/-- Dataclass `PositionMetrics` (src/bot.py lines 50-57). -/
structure PositionMetrics where
  balance : ℚ
  position_size : ℚ
  quantity : ℚ
  risk_amount : ℚ
  risk_percentage : ℚ
deriving DecidableEq, Repr

/-- Method `PositionCalculator.calculate_risk_percentage_from_prices`
(src/bot.py lines 75-80); `raise ValueError` is embedded as `Except.error`. -/
def calculate_risk_percentage_from_prices (entry stop_loss : ℚ) : Except String ℚ :=
  if entry ≤ 0 then .error "Entry price must be greater than zero"
  else .ok (|entry - stop_loss| / entry * 100)

/-- Method `PositionCalculator.calculate_position` (src/bot.py lines 82-129);
`raise ValueError` is embedded as `Except.error`. -/
def calculate_position (balance entry_price stop_loss risk_percentage leverage : ℚ)
    (quantity : Option ℚ) : Except String PositionMetrics :=
  if balance ≤ 0 then .error "Balance must be greater than zero"
  else if entry_price ≤ 0 then .error "Entry price must be greater than zero"
  else if stop_loss ≤ 0 then .error "Stop loss must be greater than zero"
  else if entry_price = stop_loss then .error "Entry and stop loss must be different"
  else if leverage ≤ 0 then .error "Leverage must be greater than zero"
  else if risk_percentage < 0 ∨ 100 < risk_percentage then
    .error "Risk percentage must be between 0 and 100"
  else if quantity.any (fun q => decide (q ≤ 0)) then
    .error "Quantity must be greater than zero"
  else
    let position_size := balance * leverage
    let price_risk_percentage := |entry_price - stop_loss| / entry_price
    let risk_amount := position_size * price_risk_percentage
    let calculated_quantity :=
      match quantity with
      | none => position_size / entry_price
      | some q => q
    .ok { balance := balance
          position_size := position_size
          quantity := calculated_quantity
          risk_amount := risk_amount
          risk_percentage := (risk_amount / balance) * 100 }

/-- Variant `EnhancedTrade`: the dictionary stored by `trade_ephemeral_cmd` with
`"type": "trade_ephemeral_enhanced"` (src/bot.py lines 586-598). -/
structure EnhancedTrade where
  user_id : Nat
  symbol : String
  entry : ℚ
  sl : ℚ
  order_type : String
  status : String
  price_risk_percentage : ℚ
  trader_metrics : Option PositionMetrics
  user_metrics : Option PositionMetrics
  image_url : Option String
deriving DecidableEq, Repr

/-- Variant `LegacyTrade`: a stored dictionary with `"type": "trade_ephemeral"`, as read
back by the legacy branch of `unlock_button` (src/bot.py lines 366-428); every
field is fetched with `.get`, so the optional ones are `Option`s and the string
fields carry the `.get` defaults at the read site. -/
structure LegacyTrade where
  user : Option Nat
  symbol : String
  entry : String
  sl : String
  percentage_text : String
  emoji : Option String
  status : Option String
  image_url : Option String
deriving DecidableEq, Repr

/-- The values held by `SECRET_STORE`: a plain string, or one of the two
trade dictionaries (src/bot.py lines 34, 319, 366, 437). -/
inductive SecretPayload where
  | plainText (body : String)
  | legacyTrade (t : LegacyTrade)
  | enhancedTrade (t : EnhancedTrade)
deriving DecidableEq, Repr

/-- Python truthiness of a stored payload, as tested by `if not secret:`
(src/bot.py line 312): the empty string is falsy; both trade dictionaries
always carry a `"type"` key, so they are non-empty and truthy. -/
def SecretPayload.isFalsy : SecretPayload → Bool
  | .plainText body => body.isEmpty
  | .legacyTrade _ => false
  | .enhancedTrade _ => false

/-- Mapping `SECRET_STORE` (src/bot.py line 34), embedded as the trace of `put`s;
lookup takes the most recent entry for an id, which is exactly the Python
dict's overwrite-on-assignment behaviour. -/
abbrev Store := List (Nat × SecretPayload)

/-- Assignment `SECRET_STORE[id] = payload` (src/bot.py line 602). -/
def Store.put (s : Store) (id : Nat) (p : SecretPayload) : Store :=
  (id, p) :: s

/-- Lookup `SECRET_STORE.get(id)` (src/bot.py line 311). -/
def Store.get (s : Store) (id : Nat) : Option SecretPayload :=
  (List.find? (fun e => e.1 = id) s).map Prod.snd

/-- Dataclass `UnlockConfig` (src/bot.py lines 37-40). -/
structure UnlockConfig where
  allowed_role_id : Option Nat
deriving DecidableEq, Repr

/-- The presser of the unlock button: `interaction.user`, which is a guild
`Member` (carrying roles) or a bare user (src/bot.py lines 299-303).
`roles` lists the ids of the member's roles; `name` is `str(interaction.user)`. -/
structure Viewer where
  isMember : Bool
  roles : List Nat
  name : String
deriving DecidableEq, Repr

/-- The role gate of `unlock_button` (src/bot.py lines 297-309): with no
configured role everyone passes; otherwise exactly the guild members holding
the configured role pass (`has_role` is `False` for a non-`Member`). -/
def authorize (cfg : UnlockConfig) (viewer : Viewer) : Bool :=
  match cfg.allowed_role_id with
  | none => true
  | some rid => viewer.isMember && viewer.roles.contains rid

/-- A Discord embed, restricted to the parts this program sets. `timestamp`
holds the clock string when `discord.Embed(timestamp=...)` is passed; an
embed field is `(name, value, inline)`. -/
structure Embed where
  title : Option String := none
  description : Option String := none
  color : Option (Nat × Nat × Nat) := none
  fields : List (String × String × Bool) := []
  footer : Option String := none
  image : Option String := none
  timestamp : Option String := none
deriving DecidableEq, Repr

/-- Abstraction of Python's float-to-string conversion used by f-string
interpolation of `entry`/`stop_loss`; the exact digits are irrelevant to the
claims, only that it is a pure function of the value. -/
def pyNum (q : ℚ) : String := toString q.num ++ if q.den = 1 then "" else "/" ++ toString q.den

/-- Python's `str.upper()` over the ASCII range, as applied to symbols and
order types. -/
def pyUpper (s : String) : String := String.mk (s.data.map Char.toUpper)

/-- The disclaimer blockquote of the enhanced trade embed (src/bot.py line 196). -/
def trade_disclaimer : String :=
  "> ‚ö†Ô∏è **Disclaimer**\n> Challenge trades may involve higher risks. Only risk what you can afford to lose and be prepared for the possibility of significant losses. Always trade responsibly."

/-- Method `EmbedBuilder.build_trade_details_embed` (src/bot.py lines 166-203). -/
def build_trade_details_embed (symbol : String) (entry stop_loss : ℚ) (status : String)
    (risk_percentage : ℚ) (order_type : String) (now : String) : Embed :=
  let emoji := if pyUpper order_type = "BUY" then ":Long:" else ":Short:"
  let description := emoji ++ " **" ++ pyUpper symbol ++ "** | **Entry:** " ++ pyNum entry
    ++ " | **SL:** " ++ pyNum stop_loss ++ " (‚â§ " ++ format_percentage risk_percentage ++ ")"
  let color := if pyUpper order_type = "BUY" then (59, 165, 92) else (88, 101, 242)
  { description := some description
    color := some color
    timestamp := some now
    fields := [("", trade_disclaimer, false)]
    footer := some ("Status: ‚ùå " ++ status) }

/-- Method `EmbedBuilder.build_image_embed` (src/bot.py lines 205-210). -/
def build_image_embed (image_url : String) : Embed :=
  { image := some image_url }

/-- The per-metrics field text of the position overview (src/bot.py
lines 230-235 and 240-245; the trader and user texts are built identically). -/
def positionFieldText (m : PositionMetrics) : String :=
  "‚Ä¢ **Balance:** `" ++ format_currency m.balance ++ "`\n"
    ++ "‚Ä¢ **Position:** `" ++ format_currency m.position_size ++ "`\n"
    ++ "‚Ä¢ **Quantity:** `" ++ format_quantity m.quantity ++ "`\n"
    ++ "‚Ä¢ **Risk:** `" ++ format_currency m.risk_amount
    ++ " (" ++ format_percentage m.risk_percentage ++ ")`"

/-- Method `EmbedBuilder.build_position_overview_embed` (src/bot.py lines 212-251);
returns `none` (Python `None`) iff both metrics are absent. A `PositionMetrics`
dataclass instance is always truthy, so `if trader_metrics:` is its
`is not None` test. -/
def build_position_overview_embed (trader_metrics user_metrics : Option PositionMetrics) :
    Option Embed :=
  if trader_metrics = none ∧ user_metrics = none then none
  else some
    { title := some "<:peepo_wg:1462143740352266408> Challenge - Position Overview"
      color := some (252, 194, 0)
      fields :=
        (match trader_metrics with
         | some m => [("Trader Position", positionFieldText m, true)]
         | none => [])
        ++ (match user_metrics with
            | some m => [("Your Position", positionFieldText m, true)]
            | none => [])
      footer := some "‚ö†Ô∏è Beta ‚Äî balance may not be updated yet. Use as guidance only." }

/-- The disclaimer of the legacy trade embed (src/bot.py line 416). -/
def legacy_disclaimer : String :=
  "‚ö†Ô∏è **Disclaimer**\nChallenge trades may involve higher risks. Only risk what you can afford to lose and be prepared for the possibility of significant losses. Always trade responsibly."

/-- The emoji token of the legacy trade description (src/bot.py lines 380-392):
`name:id` becomes a platform emoji reference, a bare integer id is paired with
the symbol, anything else passes through verbatim. `String.toInt?` stands for
Python's `int(...)` parse (`try`/`except` embedded as the `Option`). -/
def legacyEmojiStr (emoji symbol : String) : String :=
  if emoji.contains ':' then
    let parts := emoji.splitOn ":"
    if parts.length = 2 then "<:" ++ parts.getD 0 "" ++ ":" ++ parts.getD 1 "" ++ ">"
    else emoji
  else
    match emoji.toInt? with
    | some emoji_id => "<:" ++ symbol ++ ":" ++ toString emoji_id ++ ">"
    | none => emoji

/-- The `f"<@{user_id}>" if user_id else ""` mention line (src/bot.py
lines 324-325 and 371-372); Python truthiness makes id `0` or a missing id
produce the empty string. -/
def userMention (user_id : Option Nat) : String :=
  match user_id with
  | some uid => if uid ≠ 0 then "<@" ++ toString uid ++ ">" else ""
  | none => ""

/-- The legacy `trade_ephemeral` rendering of `unlock_button` (src/bot.py
lines 366-435): one embed whose description concatenates the optional emoji
token, bolded uppercased symbol, entry, stop-loss and percentage text, with
the disclaimer field, a footer embedding the render timestamp, and an
optional image. -/
def renderLegacy (t : LegacyTrade) (now : String) : Option String × List Embed :=
  let user_mention := userMention t.user
  let symbol := t.symbol
  let emojiPart :=
    match t.emoji with
    | some emoji => if emoji ≠ "" then legacyEmojiStr emoji symbol ++ " " else ""
    | none => ""
  let description := emojiPart ++ "**" ++ pyUpper symbol ++ "**" ++ " | "
    ++ "**Entry:** " ++ t.entry ++ " | " ++ "**SL:** " ++ t.sl ++ " " ++ t.percentage_text
  let status_text := t.status.getD "Active"
  let embed : Embed :=
    { description := some description
      color := some (59, 165, 92)
      timestamp := some now
      fields := [("", legacy_disclaimer, false)]
      footer := some ("Status: üõë " ++ status_text ++ " ‚Ä¢ " ++ now)
      image :=
        match t.image_url with
        | some u => if u ≠ "" then some u else none
        | none => none }
  (some user_mention, [embed])

/-- The enhanced `trade_ephemeral_enhanced` rendering of `unlock_button`
(src/bot.py lines 319-363): the trade-details embed, then the position
overview when present, then the image embed when a truthy URL is present. -/
def renderEnhanced (t : EnhancedTrade) (now : String) : Option String × List Embed :=
  let user_mention := userMention (some t.user_id)
  let trade_embed := build_trade_details_embed t.symbol t.entry t.sl t.status
    t.price_risk_percentage t.order_type now
  let embeds := [trade_embed]
    ++ (match build_position_overview_embed t.trader_metrics t.user_metrics with
        | some e => [e]
        | none => [])
    ++ (match t.image_url with
        | some u => if u ≠ "" then [build_image_embed u] else []
        | none => [])
  (some user_mention, embeds)

/-- The plain-text fallback rendering of `unlock_button` (src/bot.py
lines 436-446). -/
def renderPlain (body : String) (viewer : Viewer) (now : String) : Option String × List Embed :=
  (none,
   [{ title := some "Unlocked Content"
      description := some body
      color := some (46, 204, 113)
      timestamp := some now
      footer := some ("Unlocked by " ++ viewer.name) }])

/-- The payload-variant dispatch of `unlock_button` (src/bot.py lines 319,
366, 436): enhanced dictionaries, legacy dictionaries, and the plain-text
fallback, each yielding the ephemeral response's content line and embeds. -/
def renderSecret (secret : SecretPayload) (viewer : Viewer) (now : String) :
    Option String × List Embed :=
  match secret with
  | .enhancedTrade t => renderEnhanced t now
  | .legacyTrade t => renderLegacy t now
  | .plainText body => renderPlain body viewer now

/-- The terminal outcome of one button press, as seen by the presser. -/
inductive RevealOutcome where
  | denied
  | notFound
  | rendered (content : Option String) (embeds : List Embed)
deriving DecidableEq, Repr

/-- Handler `UnlockView.unlock_button` (src/bot.py lines 296-446): role gate, then
store lookup (`if not secret:` treats a missing or falsy entry alike), then
variant-aware rendering. The store is returned alongside the outcome to make
the handler's (absent) mutation of `SECRET_STORE` explicit. -/
def unlock_button (cfg : UnlockConfig) (viewer : Viewer) (store : Store)
    (locked_message_id : Nat) (now : String) : RevealOutcome × Store :=
  if authorize cfg viewer then
    match Store.get store locked_message_id with
    | none => (.notFound, store)
    | some secret =>
      if secret.isFalsy then (.notFound, store)
      else
        let r := renderSecret secret viewer now
        (.rendered r.1 r.2, store)
  else (.denied, store)

/-- The user-visible result of one `trade_ephemeral` command invocation:
a private error notice, or the locked message posted with the unlock control
after storing the payload. -/
inductive CmdResult where
  | error (msg : String)
  | posted (lockedId : Nat) (store : Store)
deriving DecidableEq, Repr

/-- Handler `trade_ephemeral_cmd` (src/bot.py lines 486-623): parameter validation in
source order, order-type normalization, risk/metrics computation (the
`try`/`except ValueError` boundary embedded as the `Except` matches), then
storing the enhanced payload under the interaction id. -/
def trade_ephemeral_cmd (store : Store) (interactionId : Nat) (user_id : Nat)
    (symbol : String) (entry sl : ℚ) (order_type : String) (status : Option String)
    (trader_balance : Option ℚ) (risk_percentage leverage : ℚ) (quantity : Option ℚ)
    (image_url : Option String) : CmdResult :=
  if entry ≤ 0 then .error "‚ùå Entry price must be greater than zero."
  else if sl ≤ 0 then .error "‚ùå Stop loss must be greater than zero."
  else if entry = sl then .error "‚ùå Entry and stop loss must be different."
  else if trader_balance.any (fun b => decide (b ≤ 0)) then
    .error "‚ùå Trader balance must be greater than zero."
  else if risk_percentage < 0 ∨ 100 < risk_percentage then
    .error "‚ùå Risk percentage must be between 0 and 100."
  else if leverage ≤ 0 then .error "‚ùå Leverage must be greater than zero."
  else if quantity.any (fun q => decide (q ≤ 0)) then
    .error "‚ùå Quantity must be greater than zero."
  else
    let order_type_normalized := pyUpper order_type
    if order_type_normalized ≠ "BUY" ∧ order_type_normalized ≠ "SELL" then
      .error "‚ùå Invalid order type. Please use \"BUY\" or \"SELL\"."
    else
      match calculate_risk_percentage_from_prices entry sl with
      | .error e => .error ("‚ùå Error: " ++ e)
      | .ok price_risk_percentage =>
        match
          (match trader_balance with
           | none => Except.ok (none : Option PositionMetrics)
           | some b =>
             (calculate_position b entry sl risk_percentage leverage quantity).map some) with
        | .error e => .error ("‚ùå Error: " ++ e)
        | .ok trader_metrics =>
          let user_metrics := trader_metrics
          -- `status if status else "Active"` (src/bot.py line 584) is a
          -- truthiness check: a missing OR empty-string status becomes "Active".
          let status_text :=
            match status with
            | some st => if st ≠ "" then st else "Active"
            | none => "Active"
          let trade_data : EnhancedTrade :=
            { user_id := user_id
              symbol := symbol
              entry := entry
              sl := sl
              order_type := order_type_normalized
              status := status_text
              price_risk_percentage := price_risk_percentage
              trader_metrics := trader_metrics
              user_metrics := user_metrics
              image_url := image_url }
          .posted interactionId (Store.put store interactionId (.enhancedTrade trade_data))

/-- The spec's validity condition on `calculatePosition` inputs: `balance > 0`,
`entryPrice > 0`, `stopLoss > 0`, `entryPrice != stopLoss`, `leverage > 0`,
`0 <= riskPercentage <= 100`, and `quantity > 0` when supplied. -/
def validParams (balance entry_price stop_loss risk_percentage leverage : ℚ)
    (quantity : Option ℚ) : Prop :=
  0 < balance ∧ 0 < entry_price ∧ 0 < stop_loss ∧ entry_price ≠ stop_loss ∧
    0 < leverage ∧ 0 ≤ risk_percentage ∧ risk_percentage ≤ 100 ∧
    ∀ x, quantity = some x → 0 < x

/-- The spec's words for the first violated constraint, in the spec's fixed
order `balance > 0`, `entryPrice > 0`, `stopLoss > 0`, `entryPrice != stopLoss`,
`leverage > 0`, `0 <= riskPercentage <= 100`, `quantity > 0` (if provided);
`none` when every constraint holds. -/
def specFirstViolation (balance entry_price stop_loss risk_percentage leverage : ℚ)
    (quantity : Option ℚ) : Option String :=
  if ¬ 0 < balance then some "Balance must be greater than zero"
  else if ¬ 0 < entry_price then some "Entry price must be greater than zero"
  else if ¬ 0 < stop_loss then some "Stop loss must be greater than zero"
  else if entry_price = stop_loss then some "Entry and stop loss must be different"
  else if ¬ 0 < leverage then some "Leverage must be greater than zero"
  else if ¬ (0 ≤ risk_percentage ∧ risk_percentage ≤ 100) then
    some "Risk percentage must be between 0 and 100"
  else if ∃ x, quantity = some x ∧ ¬ 0 < x then some "Quantity must be greater than zero"
  else none

instance (quantity : Option ℚ) : Decidable (∃ x, quantity = some x ∧ ¬ 0 < x) :=
  match quantity with
  | none => .isFalse (by simp)
  | some q =>
    if h : 0 < q then .isFalse (by simp [h]) else .isTrue ⟨q, rfl, h⟩

/-- Equality of two embeds on every clock-independent field: title,
description, color, fields, image; the embed timestamp may only differ in
value (presence must agree), and the footer must either be equal or be the
same text followed by the respective render timestamps. -/
def embedClockMatch (t₁ t₂ : String) (e₁ e₂ : Embed) : Prop :=
  e₁.title = e₂.title ∧ e₁.description = e₂.description ∧ e₁.color = e₂.color ∧
    e₁.fields = e₂.fields ∧ e₁.image = e₂.image ∧
    e₁.timestamp.isSome = e₂.timestamp.isSome ∧
    (e₁.footer = e₂.footer ∨
      ∃ base, e₁.footer = some (base ++ t₁) ∧ e₂.footer = some (base ++ t₂))

/-- Two press outcomes agree up to the render clock: same terminal state,
same content line, and embeds matching pointwise per `embedClockMatch`. -/
def outcomeClockMatch (t₁ t₂ : String) : RevealOutcome → RevealOutcome → Prop
  | .denied, .denied => True
  | .notFound, .notFound => True
  | .rendered c₁ es₁, .rendered c₂ es₂ => c₁ = c₂ ∧ List.Forall₂ (embedClockMatch t₁ t₂) es₁ es₂
  | _, _ => False

/-- An enhanced-trade payload whose `image_url` is set to the empty string. -/
def c7Trade : EnhancedTrade :=
  { user_id := 1
    symbol := "BTC"
    entry := 100
    sl := 95
    order_type := "BUY"
    status := "Active"
    price_risk_percentage := 5
    trader_metrics := none
    user_metrics := none
    image_url := some "" }

/-- The metrics `calculate_position 1000 100 95 25 5` produces. -/
def c9Metrics : PositionMetrics :=
  { balance := 1000
    position_size := 5000
    quantity := 50
    risk_amount := 250
    risk_percentage := 25 }

/-- The enhanced-trade payload stored by the C9 end-to-end command invocation. -/
def c9Trade : EnhancedTrade :=
  { user_id := 7
    symbol := "XMR"
    entry := 100
    sl := 95
    order_type := "BUY"
    status := "Active"
    price_risk_percentage := 5
    trader_metrics := some c9Metrics
    user_metrics := some c9Metrics
    image_url := none }

/-- Branch equation of the reveal controller: a presser failing the gate is
denied and the store is untouched. -/
theorem unlock_button_eq_denied (cfg : UnlockConfig) (v : Viewer) (s : Store)
    (id : Nat) (now : String) (hA : authorize cfg v = false) :
    unlock_button cfg v s id now = (.denied, s) := by
  simp [unlock_button, hA]

/-- Branch equation of the reveal controller: an authorized press on a missing
id reports not-found and the store is untouched. -/
theorem unlock_button_eq_notFound_none (cfg : UnlockConfig) (v : Viewer) (s : Store)
    (id : Nat) (now : String) (hA : authorize cfg v = true)
    (hG : Store.get s id = none) :
    unlock_button cfg v s id now = (.notFound, s) := by
  simp [unlock_button, hA, hG]

/-- Branch equation of the reveal controller: an authorized press on a falsy
stored payload reports not-found and the store is untouched. -/
theorem unlock_button_eq_notFound_falsy (cfg : UnlockConfig) (v : Viewer) (s : Store)
    (id : Nat) (now : String) (p : SecretPayload) (hA : authorize cfg v = true)
    (hG : Store.get s id = some p) (hF : p.isFalsy = true) :
    unlock_button cfg v s id now = (.notFound, s) := by
  simp [unlock_button, hA, hG, hF]

/-- Branch equation of the reveal controller: an authorized press on a truthy
stored payload renders it and the store is untouched. -/
theorem unlock_button_eq_rendered (cfg : UnlockConfig) (v : Viewer) (s : Store)
    (id : Nat) (now : String) (p : SecretPayload) (hA : authorize cfg v = true)
    (hG : Store.get s id = some p) (hF : p.isFalsy = false) :
    unlock_button cfg v s id now =
      (.rendered (renderSecret p v now).1 (renderSecret p v now).2, s) := by
  simp [unlock_button, hA, hG, hF]

/-- Relation `embedClockMatch` is reflexive: an embed matches itself whatever the two
clocks are. -/
theorem embedClockMatch_refl (t₁ t₂ : String) (e : Embed) : embedClockMatch t₁ t₂ e e :=
  ⟨rfl, rfl, rfl, rfl, rfl, rfl, Or.inl rfl⟩

/-- Pointwise `embedClockMatch` between a list of embeds and itself. -/
theorem forall₂_embedClockMatch_refl (t₁ t₂ : String) (l : List Embed) :
    List.Forall₂ (embedClockMatch t₁ t₂) l l :=
  List.forall₂_same.mpr fun e _ => embedClockMatch_refl t₁ t₂ e

/-- Rendering the same payload for the same viewer at two different clocks
yields the same content line and clock-matching embeds. -/
theorem renderSecret_clock_match (p : SecretPayload) (v : Viewer) (t₁ t₂ : String) :
    (renderSecret p v t₁).1 = (renderSecret p v t₂).1 ∧
    List.Forall₂ (embedClockMatch t₁ t₂) (renderSecret p v t₁).2 (renderSecret p v t₂).2 := by
  cases p with
  | plainText body =>
    exact ⟨rfl, .cons ⟨rfl, rfl, rfl, rfl, rfl, rfl, Or.inl rfl⟩ .nil⟩
  | legacyTrade t =>
    exact ⟨rfl, .cons ⟨rfl, rfl, rfl, rfl, rfl, rfl,
      Or.inr ⟨"Status: üõë " ++ t.status.getD "Active" ++ " ‚Ä¢ ", rfl, rfl⟩⟩ .nil⟩
  | enhancedTrade t =>
    exact ⟨rfl, .cons ⟨rfl, rfl, rfl, rfl, rfl, rfl, Or.inl rfl⟩
      (forall₂_embedClockMatch_refl t₁ t₂ _)⟩

/-- C1: on every valid input (`balance > 0`, `entryPrice > 0`, `stopLoss > 0`,
`entryPrice ≠ stopLoss`, `leverage > 0`, `0 ≤ riskPercentage ≤ 100`, and
`quantity > 0` when supplied), `calculate_position` returns the metrics with
`positionSize = balance * leverage`,
`riskAmount = balance * leverage * |entryPrice - stopLoss| / entryPrice`,
`quantity` the supplied one or else `balance * leverage / entryPrice`, and the
returned `riskPercentage` field equal to `riskAmount / balance * 100`. -/
theorem c1_calculate_position_valid
    (balance entry_price stop_loss risk_percentage leverage : ℚ) (quantity : Option ℚ)
    (hb : 0 < balance) (he : 0 < entry_price) (hs : 0 < stop_loss)
    (hne : entry_price ≠ stop_loss) (hl : 0 < leverage)
    (hr0 : 0 ≤ risk_percentage) (hr1 : risk_percentage ≤ 100)
    (hq : ∀ x, quantity = some x → 0 < x) :
    calculate_position balance entry_price stop_loss risk_percentage leverage quantity =
      .ok { balance := balance
            position_size := balance * leverage
            quantity := quantity.getD (balance * leverage / entry_price)
            risk_amount := balance * leverage * |entry_price - stop_loss| / entry_price
            risk_percentage :=
              balance * leverage * |entry_price - stop_loss| / entry_price / balance * 100 } := by
  have hrisk : ¬ (risk_percentage < 0 ∨ 100 < risk_percentage) :=
    not_or.mpr ⟨not_lt.mpr hr0, not_lt.mpr hr1⟩
  cases quantity with
  | none =>
    simp only [calculate_position, if_neg (not_le.mpr hb), if_neg (not_le.mpr he),
      if_neg (not_le.mpr hs), if_neg hne, if_neg (not_le.mpr hl), if_neg hrisk,
      Option.any_none, Bool.false_eq_true, if_false, Option.getD_none,
      Except.ok.injEq, PositionMetrics.mk.injEq]
    refine ⟨trivial, trivial, trivial, by ring, by ring⟩
  | some x =>
    have hx : (Option.any (fun q => decide (q ≤ 0)) (some x)) = false := by
      simpa using not_le.mpr (hq x rfl)
    simp only [calculate_position, if_neg (not_le.mpr hb), if_neg (not_le.mpr he),
      if_neg (not_le.mpr hs), if_neg hne, if_neg (not_le.mpr hl), if_neg hrisk, hx,
      Bool.false_eq_true, if_false, Option.getD_some,
      Except.ok.injEq, PositionMetrics.mk.injEq]
    refine ⟨trivial, trivial, trivial, by ring, by ring⟩

/-- C1 witness: the valid input `(1000, 100, 95, 25, 5, no quantity)`. -/
theorem c1_calculate_position_valid_witness :
    calculate_position 1000 100 95 25 5 none =
      .ok { balance := 1000
            position_size := 1000 * 5
            quantity := (none : Option ℚ).getD (1000 * 5 / 100)
            risk_amount := 1000 * 5 * |100 - 95| / 100
            risk_percentage := 1000 * 5 * |100 - 95| / 100 / 1000 * 100 } :=
  c1_calculate_position_valid 1000 100 95 25 5 none (by norm_num) (by norm_num)
    (by norm_num) (by norm_num) (by norm_num) (by norm_num) (by norm_num)
    (fun x h => by cases h)

/-- C8: the magnitude-sensitive formatters — currency is `$` plus one decimal
with thousands grouping at/above 1000 and `$` plus two decimals below,
percentage is one decimal plus `%`, quantity is value/1000 with two decimals
and `K` at/above 1000, two decimals at/above 1, else four decimals; in
particular the spec's examples `formatCurrency 999.995 = "$1000.00"`,
`formatCurrency 1000 = "$1,000.0"`, `formatQuantity 0.5 = "0.5000"`,
`formatQuantity 1500 = "1.50K"`. -/
theorem c8_formatting_utilities :
    format_currency (999995 / 1000) = "$1000.00" ∧
    format_currency 1000 = "$1,000.0" ∧
    format_quantity (1 / 2) = "0.5000" ∧
    format_quantity 1500 = "1.50K" ∧
    format_currency (99999 / 100) = "$999.99" ∧
    format_currency 1234500 = "$1,234,500.0" ∧
    format_percentage 5 = "5.0%" ∧
    format_percentage (25 / 2) = "12.5%" ∧
    format_quantity 1000 = "1.00K" ∧
    format_quantity 1 = "1.00" ∧
    format_quantity (999 / 1000) = "0.9990" := by
  with_unfolding_all decide

/-- C3: Secret Store round-trip — a `get` after `put` returns exactly the
stored payload; `get` on an id never stored is `none` (Python `None`, a
normal outcome); and a second `put` on the same id overwrites, so the store
maps the id to the new payload only. -/
theorem c3_store_round_trip (s : Store) (id : Nat) (p q : SecretPayload) :
    Store.get (Store.put s id p) id = some p ∧
    (id ∉ s.map Prod.fst → Store.get s id = none) ∧
    Store.get (Store.put (Store.put s id p) id q) id = some q := by
  refine ⟨?_, ?_, ?_⟩
  · simp [Store.get, Store.put, List.find?]
  · intro h
    have : List.find? (fun e => decide (e.1 = id)) s = none := by
      rw [List.find?_eq_none]
      intro x hx
      simp only [decide_eq_true_eq]
      intro heq
      exact h (List.mem_map.mpr ⟨x, hx, heq⟩)
    simp [Store.get, this]
  · simp [Store.get, Store.put, List.find?]

/-- C3 witness: a concrete round-trip on the empty store. -/
theorem c3_store_round_trip_witness :
    Store.get (Store.put [] 1 (.plainText "a")) 1 = some (.plainText "a") ∧
    Store.get ([] : Store) 1 = none ∧
    Store.get (Store.put (Store.put [] 1 (.plainText "a")) 1 (.plainText "b")) 1 =
      some (.plainText "b") :=
  ⟨(c3_store_round_trip [] 1 (.plainText "a") (.plainText "b")).1,
   (c3_store_round_trip [] 1 (.plainText "a") (.plainText "b")).2.1 (by simp),
   (c3_store_round_trip [] 1 (.plainText "a") (.plainText "b")).2.2⟩

/-- C4: the unlock gate — with no configured role every viewer is authorized;
with a configured role, a viewer is authorized iff they are a guild member
holding a role with that id, and a non-member is never authorized. -/
theorem c4_unlock_gate (cfg : UnlockConfig) (v : Viewer) (rid : Nat) :
    (cfg.allowed_role_id = none → authorize cfg v = true) ∧
    (cfg.allowed_role_id = some rid →
      (authorize cfg v = true ↔ v.isMember = true ∧ rid ∈ v.roles)) ∧
    (cfg.allowed_role_id = some rid → v.isMember = false → authorize cfg v = false) := by
  refine ⟨fun h => by simp [authorize, h], fun h => ?_, fun h hm => ?_⟩
  · simp only [authorize, h, Bool.and_eq_true, List.contains_iff_exists_mem_beq, beq_iff_eq]
    constructor
    · rintro ⟨h1, b, hb, rfl⟩
      exact ⟨h1, hb⟩
    · rintro ⟨h1, h2⟩
      exact ⟨h1, rid, h2, rfl⟩
  · simp [authorize, h, hm]

/-- C4 witness: a member with the role is authorized, a member without it and
a non-member are not, and with no configured role anyone passes. -/
theorem c4_unlock_gate_witness :
    authorize { allowed_role_id := some 5 } { isMember := true, roles := [5], name := "a" } = true ∧
    authorize { allowed_role_id := some 5 } { isMember := true, roles := [7], name := "b" } = false ∧
    authorize { allowed_role_id := some 5 } { isMember := false, roles := [5], name := "c" } = false ∧
    authorize { allowed_role_id := none } { isMember := false, roles := [], name := "d" } = true := by
  refine ⟨?_, ?_, ?_, ?_⟩
  · exact (c4_unlock_gate { allowed_role_id := some 5 }
      { isMember := true, roles := [5], name := "a" } 5).2.1 rfl |>.mpr ⟨rfl, by simp⟩
  · by_contra hne
    have h := (c4_unlock_gate { allowed_role_id := some 5 }
      { isMember := true, roles := [7], name := "b" } 5).2.1 rfl
    have : (5 : Nat) ∈ [7] := (h.mp (by revert hne; decide)).2
    simp at this
  · exact (c4_unlock_gate { allowed_role_id := some 5 }
      { isMember := false, roles := [5], name := "c" } 5).2.2 rfl rfl
  · exact (c4_unlock_gate { allowed_role_id := none }
      { isMember := false, roles := [], name := "d" } 5).1 rfl

/-- C2: on every input violating at least one constraint, `calculate_position`
fails with the error naming the first violated constraint in the fixed order
`balance > 0`, `entryPrice > 0`, `stopLoss > 0`, `entryPrice ≠ stopLoss`,
`leverage > 0`, `0 ≤ riskPercentage ≤ 100`, `quantity > 0` (if provided) —
the spec-side `specFirstViolation` — and produces no `PositionMetrics`. -/
theorem c2_calculate_position_invalid
    (balance entry_price stop_loss risk_percentage leverage : ℚ) (quantity : Option ℚ)
    (h : ¬ validParams balance entry_price stop_loss risk_percentage leverage quantity) :
    ∃ m, specFirstViolation balance entry_price stop_loss risk_percentage leverage quantity
        = some m ∧
      calculate_position balance entry_price stop_loss risk_percentage leverage quantity
        = .error m := by
  by_cases h1 : balance ≤ 0
  · exact ⟨"Balance must be greater than zero",
      by simp [specFirstViolation, not_lt.mpr h1], by simp [calculate_position, h1]⟩
  have h1' : 0 < balance := not_le.mp h1
  by_cases h2 : entry_price ≤ 0
  · exact ⟨"Entry price must be greater than zero",
      by simp [specFirstViolation, h1', not_lt.mpr h2], by simp [calculate_position, h1, h2]⟩
  have h2' : 0 < entry_price := not_le.mp h2
  by_cases h3 : stop_loss ≤ 0
  · exact ⟨"Stop loss must be greater than zero",
      by simp [specFirstViolation, h1', h2', not_lt.mpr h3],
      by simp [calculate_position, h1, h2, h3]⟩
  have h3' : 0 < stop_loss := not_le.mp h3
  by_cases h4 : entry_price = stop_loss
  · exact ⟨"Entry and stop loss must be different",
      by simp [specFirstViolation, h1', h2', h3', h4],
      by simp [calculate_position, h1, h2, h3, h4]⟩
  by_cases h5 : leverage ≤ 0
  · exact ⟨"Leverage must be greater than zero",
      by simp [specFirstViolation, h1', h2', h3', h4, not_lt.mpr h5],
      by simp [calculate_position, h1, h2, h3, h4, h5]⟩
  have h5' : 0 < leverage := not_le.mp h5
  by_cases h6 : risk_percentage < 0 ∨ 100 < risk_percentage
  · have h6s : ¬ (0 ≤ risk_percentage ∧ risk_percentage ≤ 100) := fun hc => by
      rcases h6 with h | h
      · exact absurd hc.1 (not_le.mpr h)
      · exact absurd hc.2 (not_le.mpr h)
    exact ⟨"Risk percentage must be between 0 and 100",
      by simp [specFirstViolation, h1', h2', h3', h4, h5', h6s],
      by simp [calculate_position, h1, h2, h3, h4, h5, h6]⟩
  have h6a : 0 ≤ risk_percentage := not_lt.mp (not_or.mp h6).1
  have h6b : risk_percentage ≤ 100 := not_lt.mp (not_or.mp h6).2
  by_cases h7 : ∃ x, quantity = some x ∧ ¬ 0 < x
  · obtain ⟨x, hx, hx0⟩ := h7
    subst hx
    have hx0' : x ≤ 0 := not_lt.mp hx0
    exact ⟨"Quantity must be greater than zero",
      by simp [specFirstViolation, h1', h2', h3', h4, h5', h6a, h6b, hx0],
      by simp [calculate_position, h1, h2, h3, h4, h5, h6, hx0']⟩
  exact absurd ⟨h1', h2', h3', h4, h5', h6a, h6b,
    fun x hx => Classical.byContradiction fun hc => h7 ⟨x, hx, hc⟩⟩ h

/-- C2 witness: the invalid input with `balance = -1` fails on the first
constraint of the order. -/
theorem c2_calculate_position_invalid_witness :
    ∃ m, specFirstViolation (-1) 100 95 25 5 none = some m ∧
      calculate_position (-1) 100 95 25 5 none = .error m :=
  c2_calculate_position_invalid (-1) 100 95 25 5 none
    (fun hv => absurd hv.1 (by norm_num))

/-- C5: reveal idempotence and frame — no press, whatever its outcome, changes
the store, and two presses by the same viewer on the same store reach the same
terminal state with identical content line and identical embeds in every
clock-independent field (title, description, color, fields, image; timestamp
presence agrees; footers agree modulo the embedded render timestamp). -/
theorem c5_reveal_idempotent_frame (cfg : UnlockConfig) (v : Viewer) (s : Store)
    (id : Nat) (t₁ t₂ : String) :
    (unlock_button cfg v s id t₁).2 = s ∧
    outcomeClockMatch t₁ t₂ (unlock_button cfg v s id t₁).1 (unlock_button cfg v s id t₂).1 := by
  by_cases hA : authorize cfg v = true
  · cases hG : Store.get s id with
    | none =>
      rw [unlock_button_eq_notFound_none cfg v s id t₁ hA hG,
        unlock_button_eq_notFound_none cfg v s id t₂ hA hG]
      exact ⟨rfl, trivial⟩
    | some p =>
      by_cases hF : p.isFalsy = true
      · rw [unlock_button_eq_notFound_falsy cfg v s id t₁ p hA hG hF,
          unlock_button_eq_notFound_falsy cfg v s id t₂ p hA hG hF]
        exact ⟨rfl, trivial⟩
      · have hF' : p.isFalsy = false := by
          revert hF
          cases p.isFalsy <;> simp
        rw [unlock_button_eq_rendered cfg v s id t₁ p hA hG hF',
          unlock_button_eq_rendered cfg v s id t₂ p hA hG hF']
        exact ⟨rfl, (renderSecret_clock_match p v t₁ t₂).1,
          (renderSecret_clock_match p v t₁ t₂).2⟩
  · have hA' : authorize cfg v = false := by
      revert hA
      cases authorize cfg v <;> simp
    rw [unlock_button_eq_denied cfg v s id t₁ hA',
      unlock_button_eq_denied cfg v s id t₂ hA']
    exact ⟨rfl, trivial⟩

/-- C6: unauthorized-press noninterference — when the config restricts by role
and the presser fails the gate, the press returns the denial outcome with the
store untouched, the outcome is the same whatever the store holds (so nothing
about the payload leaks), and a later authorized press on the resulting store
still renders the stored payload. -/
theorem c6_unauthorized_noninterference (cfg : UnlockConfig) (rid : Nat) (v v' : Viewer)
    (s : Store) (id : Nat) (t t' : String) (p : SecretPayload)
    (_hcfg : cfg.allowed_role_id = some rid)
    (hv : authorize cfg v = false) (hv' : authorize cfg v' = true)
    (hG : Store.get s id = some p) (hF : p.isFalsy = false) :
    unlock_button cfg v s id t = (.denied, s) ∧
    (∀ s' : Store, (unlock_button cfg v s' id t).1 = .denied) ∧
    (unlock_button cfg v' ((unlock_button cfg v s id t).2) id t').1 =
      .rendered (renderSecret p v' t').1 (renderSecret p v' t').2 := by
  refine ⟨unlock_button_eq_denied cfg v s id t hv,
    fun s' => by rw [unlock_button_eq_denied cfg v s' id t hv], ?_⟩
  rw [unlock_button_eq_denied cfg v s id t hv,
    unlock_button_eq_rendered cfg v' s id t' p hv' hG hF]

/-- C6 witness: a non-member denied on a role-restricted config, with a
member holding the role revealing the same entry afterwards. -/
theorem c6_unauthorized_noninterference_witness :
    unlock_button { allowed_role_id := some 5 }
        { isMember := false, roles := [], name := "x" }
        (Store.put [] 1 (.plainText "hello")) 1 "T1" =
      (.denied, Store.put [] 1 (.plainText "hello")) ∧
    (unlock_button { allowed_role_id := some 5 }
        { isMember := true, roles := [5], name := "y" }
        ((unlock_button { allowed_role_id := some 5 }
          { isMember := false, roles := [], name := "x" }
          (Store.put [] 1 (.plainText "hello")) 1 "T1").2) 1 "T2").1 =
      .rendered
        (renderSecret (.plainText "hello")
          { isMember := true, roles := [5], name := "y" } "T2").1
        (renderSecret (.plainText "hello")
          { isMember := true, roles := [5], name := "y" } "T2").2 := by
  have h := c6_unauthorized_noninterference { allowed_role_id := some 5 } 5
    { isMember := false, roles := [], name := "x" }
    { isMember := true, roles := [5], name := "y" }
    (Store.put [] 1 (.plainText "hello")) 1 "T1" "T2" (.plainText "hello")
    rfl (by decide) (by decide) (by decide) rfl
  exact ⟨h.1, h.2.2⟩

/-- C10: the reveal controller treats every falsy stored payload as absent —
an authorized press on an id whose stored payload is falsy (in particular a
`PlainText` with empty body) answers with the not-found notice instead of
rendering, even though the store lookup returned the entry. -/
theorem c10_falsy_payload_unrevealable (cfg : UnlockConfig) (v : Viewer) (s : Store)
    (id : Nat) (now : String) (p : SecretPayload)
    (hA : authorize cfg v = true) (hG : Store.get s id = some p)
    (hF : p.isFalsy = true) :
    (unlock_button cfg v s id now).1 = .notFound ∧
    (SecretPayload.plainText "").isFalsy = true := by
  rw [unlock_button_eq_notFound_falsy cfg v s id now p hA hG hF]
  exact ⟨rfl, rfl⟩

/-- C10 witness: a stored empty-bodied plain-text secret is unrevealable. -/
theorem c10_falsy_payload_unrevealable_witness :
    (unlock_button { allowed_role_id := none }
        { isMember := false, roles := [], name := "u" }
        (Store.put [] 1 (.plainText "")) 1 "T").1 = .notFound ∧
    (SecretPayload.plainText "").isFalsy = true :=
  c10_falsy_payload_unrevealable { allowed_role_id := none }
    { isMember := false, roles := [], name := "u" }
    (Store.put [] 1 (.plainText "")) 1 "T" (.plainText "")
    rfl (by decide) rfl

/-- C7 counterexample: the claim's "image document iff an image URL is
present" fails on a payload whose image URL is the (falsy) empty string —
the URL field is present, yet the reveal emits only the trade-details
document, which carries no image. -/
theorem c7_enhanced_document_order_counterexample :
    c7Trade.image_url.isSome = true ∧
    (unlock_button { allowed_role_id := none } { isMember := true, roles := [], name := "u" }
        (Store.put [] 3 (.enhancedTrade c7Trade)) 3 "T").1 =
      .rendered (some "<@1>")
        [build_trade_details_embed "BTC" 100 95 "Active" 5 "BUY" "T"] ∧
    (build_trade_details_embed "BTC" 100 95 "Active" 5 "BUY" "T").image = none := by
  refine ⟨rfl, ?_, rfl⟩
  with_unfolding_all rfl

/-- C7 (amended): an authorized reveal of an `EnhancedTrade` payload yields
the trade-details document first, then the position-overview document exactly
when at least one of trader/user metrics is present, then an image-only
document exactly when a NON-EMPTY image URL is present (an empty-string URL
counts as absent, per Python truthiness) — between one and three documents,
always in the order (a),(b),(c). -/
theorem c7_enhanced_document_order (cfg : UnlockConfig) (v : Viewer) (s : Store)
    (id : Nat) (now : String) (t : EnhancedTrade)
    (hA : authorize cfg v = true)
    (hG : Store.get s id = some (.enhancedTrade t)) :
    ∃ (mention : Option String) (mid img : List Embed),
      (unlock_button cfg v s id now).1 =
        .rendered mention
          ([build_trade_details_embed t.symbol t.entry t.sl t.status
              t.price_risk_percentage t.order_type now] ++ mid ++ img) ∧
      mid = (build_position_overview_embed t.trader_metrics t.user_metrics).toList ∧
      ((build_position_overview_embed t.trader_metrics t.user_metrics).isSome ↔
        (t.trader_metrics.isSome ∨ t.user_metrics.isSome)) ∧
      (img ≠ [] ↔ ∃ u, t.image_url = some u ∧ u ≠ "") ∧
      (∀ u, t.image_url = some u → u ≠ "" → img = [build_image_embed u]) := by
  rw [unlock_button_eq_rendered cfg v s id now _ hA hG rfl]
  refine ⟨(renderEnhanced t now).1,
    (match build_position_overview_embed t.trader_metrics t.user_metrics with
     | some e => [e]
     | none => []),
    (match t.image_url with
     | some u => if u ≠ "" then [build_image_embed u] else []
     | none => []), rfl, ?_, ?_, ?_, ?_⟩
  · cases build_position_overview_embed t.trader_metrics t.user_metrics <;> rfl
  · cases t.trader_metrics <;> cases t.user_metrics <;>
      simp [build_position_overview_embed]
  · cases t.image_url with
    | none => simp
    | some u =>
      by_cases hu : u = "" <;> simp [hu]
  · intro u hu hne
    rw [hu]
    simp [hne]

/-- C7 witness: the amended statement at the concrete payload with the
empty-string image URL. -/
theorem c7_enhanced_document_order_witness :
    ∃ (mention : Option String) (mid img : List Embed),
      (unlock_button { allowed_role_id := none } { isMember := true, roles := [], name := "u" }
          (Store.put [] 3 (.enhancedTrade c7Trade)) 3 "T").1 =
        .rendered mention
          ([build_trade_details_embed c7Trade.symbol c7Trade.entry c7Trade.sl c7Trade.status
              c7Trade.price_risk_percentage c7Trade.order_type "T"] ++ mid ++ img) ∧
      mid = (build_position_overview_embed c7Trade.trader_metrics c7Trade.user_metrics).toList ∧
      ((build_position_overview_embed c7Trade.trader_metrics c7Trade.user_metrics).isSome ↔
        (c7Trade.trader_metrics.isSome ∨ c7Trade.user_metrics.isSome)) ∧
      (img ≠ [] ↔ ∃ u, c7Trade.image_url = some u ∧ u ≠ "") ∧
      (∀ u, c7Trade.image_url = some u → u ≠ "" → img = [build_image_embed u]) :=
  c7_enhanced_document_order { allowed_role_id := none }
    { isMember := true, roles := [], name := "u" }
    (Store.put [] 3 (.enhancedTrade c7Trade)) 3 "T" c7Trade rfl (by decide)

/-- C9: end-to-end — the trade command at `entry=100, sl=95, BUY,
trader_balance=1000, leverage=5, risk_percentage=25` stores an enhanced
payload with `priceRiskPercentage = 5` and trader `riskAmount = 250`, and a
subsequent authorized reveal produces the trade-details document plus a
position-overview document with one "Trader Position" field and one
"Your Position" field with identical contents. -/
theorem c9_end_to_end :
    ∃ (st : Store) (t : EnhancedTrade) (mention : Option String) (e₂ : Embed) (txt : String),
      trade_ephemeral_cmd [] 42 7 "XMR" 100 95 "BUY" none (some 1000) 25 5 none none =
        .posted 42 st ∧
      Store.get st 42 = some (.enhancedTrade t) ∧
      t.price_risk_percentage = 5 ∧
      t.trader_metrics.map PositionMetrics.risk_amount = some 250 ∧
      (unlock_button { allowed_role_id := none } { isMember := true, roles := [], name := "u" }
          st 42 "T").1 =
        .rendered mention [build_trade_details_embed "XMR" 100 95 "Active" 5 "BUY" "T", e₂] ∧
      e₂.fields = [("Trader Position", txt, true), ("Your Position", txt, true)] := by
  refine ⟨Store.put [] 42 (.enhancedTrade c9Trade), c9Trade, some "<@7>",
    (build_position_overview_embed (some c9Metrics) (some c9Metrics)).getD {},
    positionFieldText c9Metrics, ?_, ?_, ?_, ?_, ?_, ?_⟩
  · with_unfolding_all rfl
  · with_unfolding_all rfl
  · rfl
  · with_unfolding_all rfl
  · with_unfolding_all rfl
  · with_unfolding_all rfl

end Bot

